import Mathlib

/-!
Verification development for the Livy-session protocol driver
(`src/dbt/adapters/fabricspark/livysession.py`).

The Python module is shallowly embedded below: the HTTP layer is abstracted
as streams of responses, unix timestamps become integers (seconds), and the
mutable cursor becomes explicit state passing.  Each definition carries a
doc comment naming the source construct it embeds.
-/

/-- Embeds the module constant `DEFAULT_POLL_WAIT = 45` (line 26). -/
def DEFAULT_POLL_WAIT : Nat := 45

/-- Embeds the module constant `DEFAULT_POLL_STATEMENT_WAIT = 5` (line 27). -/
def DEFAULT_POLL_STATEMENT_WAIT : Nat := 5

/-- Embeds the module constant `DEFAULT_EXECUTE_RETRIES_TIME = 5` (line 30). -/
def DEFAULT_EXECUTE_RETRIES_TIME : Nat := 5

/-- Embeds the module constant `DEFAULT_EXECUTE_RETRIES_WAIT = 10` (line 31). -/
def DEFAULT_EXECUTE_RETRIES_WAIT : Nat := 10

/-- Embeds the module constant `EXECUTE_RETRIES_PATTERNS` (line 32). -/
def EXECUTE_RETRIES_PATTERNS : List String :=
  ["Request failed: HTTP/1.1 403 Forbidden ClientRequestId"]

/-- Embeds Python's `needle in haystack` substring test on strings, on the
character list of the haystack: true iff the needle's characters occur
contiguously (this is the semantics of `str.__contains__`). -/
def strContainsAux (needle : List Char) : List Char → Bool
  | [] => needle.isEmpty
  | c :: rest => needle.isPrefixOf (c :: rest) || strContainsAux needle rest

/-- Embeds Python's `needle in haystack` on `String`. -/
def strContains (haystack needle : String) : Bool :=
  strContainsAux needle.data haystack.data

/-- Embeds `is_token_refresh_necessary` (lines 48-60).  The source converts the
token's unix expiry and the current wall clock to `datetime` objects (the
current time truncated to whole seconds by `time.mktime(time.localtime(...))`),
subtracts them, and refreshes when `int(difference.total_seconds() / 60) < 5`.
Both instants are modelled as whole seconds; Python's `int()` on the float
quotient truncates toward zero, which is `Int.tdiv`. -/
def is_token_refresh_necessary (unixTimestamp now : Int) : Bool :=
  if (unixTimestamp - now).tdiv 60 < 5 then true else false

/-- Models the `azure.core.credentials.AccessToken` value cached in the module
global `accessToken` (line 34): an opaque bearer string plus its unix expiry. -/
structure AccessTok where
  token : String
  expires_on : Int
deriving DecidableEq, Repr

/-- Embeds `get_headers` (lines 110-124).  The module-global cache is passed in
as `cached`, the wall clock as `now`, and the token the identity provider
(CLI or client-secret, both external) would return as `freshTok`.  Returns the
headers built from the token that ends up in the cache, the new cache content,
and whether a fresh token was fetched (i.e. the cache was replaced). -/
def get_headers (cached : Option AccessTok) (now : Int) (freshTok : AccessTok) :
    List (String × String) × AccessTok × Bool :=
  let fetchNeeded :=
    match cached with
    | none => true
    | some t => is_token_refresh_necessary t.expires_on now
  let tok := if fetchNeeded then freshTok else cached.getD freshTok
  ([("Content-Type", "application/json"),
    ("Authorization", "Bearer " ++ tok.token)], tok, fetchNeeded)

/-- Models the JSON body of the session-create POST response as far as
`create_session` reads it before its poll loop: `idVal` is `some i` when
`response.json()["id"]` yields `i`, and `none` when the body cannot be decoded
(the `JSONDecodeError` branch, lines 172-175). -/
structure SessionJson where
  idVal : Option String
deriving DecidableEq, Repr

/-- Models the four ways `requests.post` at lines 151-158 can end: a 2xx/3xx
response (no exception), a response whose `raise_for_status()` raised
`HTTPError` (the response object was already assigned), or a
`ConnectionError` / `Timeout` raised by the POST itself (no response object is
ever assigned). -/
inductive PostOutcome where
  | ok (body : SessionJson)
  | httpStatusError (body : SessionJson)
  | connErr
  | timeoutErr
deriving DecidableEq, Repr

/-- Classifies the transport-level failures named by the spec: connection
error, HTTP status error, or timeout. -/
def isTransportFailure : PostOutcome → Bool
  | .ok _ => false
  | .httpStatusError _ => true
  | .connErr => true
  | .timeoutErr => true

/-- Embeds the value of the local variable `response` after the
try/except block of `create_session` (lines 148-166): the handlers print and
swallow every `requests` exception, so `response` is `None` exactly when the
POST call itself raised before returning a response object. -/
def create_session_post_response : PostOutcome → Option SessionJson
  | .ok b => some b
  | .httpStatusError b => some b
  | .connErr => none
  | .timeoutErr => none

/-- Models what `create_session` (lines 146-175) does between the POST and its
poll loop: raise `Exception("Invalid response from livy server")` when
`response is None`, raise `Exception("Json decode error to get session_id")`
when the body does not decode, and otherwise continue into the poll loop with
the parsed session id. -/
inductive CreatePrePoll where
  | fatalNoResponse
  | jsonDecodeError
  | proceed (session_id : String)
deriving DecidableEq, Repr

/-- Embeds `create_session` from the POST up to (not including) the
state-polling loop (lines 146-175). -/
def create_session_before_poll (o : PostOutcome) : CreatePrePoll :=
  match create_session_post_response o with
  | none => .fatalNoResponse
  | some b =>
    match b.idVal with
    | none => .jsonDecodeError
    | some i => .proceed i

/-- Models one entry of the `GET {base}/sessions` listing consumed by
`get_exist_session` (lines 228-234): `id`, `name` and `livyState` fields. -/
structure SessionItem where
  id : String
  name : String
  livyState : String
deriving DecidableEq, Repr

/-- Embeds `LivySession.get_exist_session` (lines 223-251).  The `for` loop
over `res["items"]` is a fold over the listing carrying `self.session_id`
(initially `None`, line 131).  A name match in state dead/shutting_down/killed
is skipped (`continue`).  For any other name match the source enters an inner
`while` poll whose only exit assigns `self.session_id = session["id"]` (once
the candidate reports `idle`); the poll is modelled by that assignment.  Note
the inner `break` leaves only the `while`, so the `for` loop keeps scanning
and later matches overwrite earlier ones. -/
def get_exist_session (livy_session_name : Option String)
    (items : List SessionItem) (session_id : Option String) : Option String :=
  match livy_session_name with
  | none => none
  | some nm =>
    items.foldl
      (fun sid session =>
        if session.name = nm then
          if ["dead", "shutting_down", "killed"].contains session.livyState then sid
          else some session.id
        else sid)
      session_id

/-- Embeds `LivySessionConnectionWrapper._fix_binding`'s view of a Python
value (lines 641-652).  `pyDatetime` carries the string its
`strftime("%Y-%m-%d %H:%M:%S.%f")` call would render (the formatting itself
belongs to the external `datetime` library). -/
inductive PyVal where
  | pyBool (b : Bool)
  | pyInt (n : Int)
  | pyFloat (q : Rat)
  | pyDecimal (q : Rat)
  | pyDatetime (strftimeMicros : String)
  | pyNone
  | pyStr (s : String)
deriving DecidableEq, Repr

/-- Embeds `isinstance(value, NUMBERS)` with `NUMBERS = DECIMALS + (int,
float)` (line 22).  Python's `bool` is a subclass of `int`, so a `bool` value
satisfies this check. -/
def isinstance_NUMBERS : PyVal → Bool
  | .pyBool _ => true
  | .pyInt _ => true
  | .pyFloat _ => true
  | .pyDecimal _ => true
  | _ => false

/-- Embeds `isinstance(value, dt.datetime)`. -/
def isinstance_datetime : PyVal → Bool
  | .pyDatetime _ => true
  | _ => false

/-- Embeds Python's `float(value)` on the values that reach it inside
`_fix_binding` (the numeric branch): `float(True) = 1.0`, `float(False) =
0.0`; the non-numeric cases never reach this call. -/
def py_float : PyVal → Rat
  | .pyBool b => if b then 1 else 0
  | .pyInt n => (n : Rat)
  | .pyFloat q => q
  | .pyDecimal q => q
  | _ => 0

/-- Result of `_fix_binding`: either the float produced by the numeric branch
or the literal string produced by the other branches. -/
inductive Binding where
  | num (x : Rat)
  | str (s : String)
deriving DecidableEq, Repr

/-- Embeds `LivySessionConnectionWrapper._fix_binding` (lines 641-652),
branch for branch: numeric (which `bool` enters first, being an `int`
subclass) → `float(value)`; `datetime` → quoted `strftime(...)[:-3]`; `None` →
`"''"`; anything else → quoted `str(value)` (only `pyStr` can reach it). -/
def fix_binding (value : PyVal) : Binding :=
  if isinstance_NUMBERS value then .num (py_float value)
  else if isinstance_datetime value then
    .str ("'" ++ (match value with
      | .pyDatetime r => r.dropRight 3
      | _ => "") ++ "'")
  else if value = .pyNone then .str "''"
  else .str ("'" ++ (match value with
    | .pyStr s => s
    | _ => "") ++ "'")

/-- Models the JSON body of one statement-submission POST response as far as
the submit loop reads it: the top-level `state` field (line 44). -/
structure SubmitResp where
  state : String
deriving DecidableEq, Repr

/-- Embeds `check_retry_condition_when_submit_code` (lines 43-46). -/
def check_retry_condition_when_submit_code (res : SubmitResp) : Bool :=
  if res.state = "error" then true else false

/-- Models the `data = {"code": code, "kind": language}` payload posted by
`_submitLivyCode` (line 342). -/
structure SubmitPayload where
  code : String
  kind : String
deriving DecidableEq, Repr

/-- Embeds the `while True` submit loop of `LivyCursor._submitLivyCode`
(lines 347-364) over the stream `responses` of POST results (indexed by POST
attempt).  The source counts `retries_time` up from 0 and re-enters the loop
only while `retries_time < DEFAULT_EXECUTE_RETRIES_TIME`; the recursion here
is on the remaining retry budget `retriesLeft`, with
`retries_time = DEFAULT_EXECUTE_RETRIES_TIME - retriesLeft` (the entry point
passes the full budget, so the correspondence is exact).  Returns the response
the source returns, the list of payloads posted (one per POST, in order), and
the list of `time.sleep` durations in seconds (line 358:
`retries_time * DEFAULT_EXECUTE_RETRIES_WAIT + DEFAULT_EXECUTE_RETRIES_WAIT`). -/
def submitGo (responses : Nat → SubmitResp) (payload : SubmitPayload) :
    Nat → Nat → SubmitResp × List SubmitPayload × List Nat
  | postIdx, 0 =>
    -- retries_time = DEFAULT_EXECUTE_RETRIES_TIME: the `break` path.
    (responses postIdx, [payload], [])
  | postIdx, retriesLeft + 1 =>
    let res := responses postIdx
    if check_retry_condition_when_submit_code res then
      let retries_time := DEFAULT_EXECUTE_RETRIES_TIME - (retriesLeft + 1)
      let rest := submitGo responses payload (postIdx + 1) retriesLeft
      (rest.1, payload :: rest.2.1,
        (retries_time * DEFAULT_EXECUTE_RETRIES_WAIT + DEFAULT_EXECUTE_RETRIES_WAIT)
          :: rest.2.2)
    else (res, [payload], [])

/-- Embeds `LivyCursor._submitLivyCode` (lines 336-364): the payload is built
once before the loop, so every POST carries the identical code.  The function
never raises: even after exhausting the retries it returns the last response. -/
def submitLivyCode (responses : Nat → SubmitResp) (code language : String) :
    SubmitResp × List SubmitPayload × List Nat :=
  submitGo responses { code := code, kind := language } 0 DEFAULT_EXECUTE_RETRIES_TIME

/-- Models one field descriptor of `values["schema"]["fields"]` (line 453)
as `description` (lines 311-322) reads it. -/
structure FieldDesc where
  name : String
  type : String
  nullable : Bool
deriving DecidableEq, Repr

/-- Models the `output` object of a polled statement result (lines 441-463):
`status`, `evalue`, and the `data["application/json"]` payload — its Python
`len(values)` (number of keys), `values["data"]` and
`values["schema"]["fields"]`. -/
structure StmtOutput where
  status : String
  evalue : String
  values_len : Nat
  data : List (List String)
  schemaFields : List FieldDesc
deriving DecidableEq, Repr

/-- Models the JSON body of a polled statement as `execute` reads it: the
top-level `state` plus the `output` object. -/
structure StmtResult where
  state : String
  output : StmtOutput
deriving DecidableEq, Repr

/-- Embeds `check_retry_condition_when_execute` (lines 36-41): true iff the
output status is `"error"` and some pattern of `EXECUTE_RETRIES_PATTERNS`
occurs in `output.evalue`. -/
def check_retry_condition_when_execute (res : StmtResult) : Bool :=
  if res.output.status = "error" then
    EXECUTE_RETRIES_PATTERNS.any (fun pattern => strContains res.output.evalue pattern)
  else false

/-- Embeds the outer `while True` loop of `LivyCursor.execute`
(lines 437-448) over the stream `results`, where `results i` is the value
`_getLivyResult(_submitLivyCode(...))` produces on the i-th submit-and-poll
cycle.  As in `submitGo`, the source's `retries_time` counter corresponds to
`DEFAULT_EXECUTE_RETRIES_TIME - retriesLeft`.  Returns `some (res, cycles,
sleeps)` where `cycles` counts the submit-and-poll cycles run; the `none`
branch marks the unreachable case of a result whose state is not
`"available"` (the source would loop again, but `_getLivyResult`'s own loop
(lines 386-400) only ever returns a result in state `"available"`). -/
def executeGo (results : Nat → StmtResult) :
    Nat → Nat → Option (StmtResult × Nat × List Nat)
  | cycleIdx, 0 =>
    let res := results cycleIdx
    if res.state = "available" then some (res, cycleIdx + 1, []) else none
  | cycleIdx, retriesLeft + 1 =>
    let res := results cycleIdx
    if res.state = "available" then
      if check_retry_condition_when_execute res then
        let retries_time := DEFAULT_EXECUTE_RETRIES_TIME - (retriesLeft + 1)
        match executeGo results (cycleIdx + 1) retriesLeft with
        | none => none
        | some (r, n, sleeps) =>
          some (r, n,
            (retries_time * DEFAULT_EXECUTE_RETRIES_WAIT + DEFAULT_EXECUTE_RETRIES_WAIT)
              :: sleeps)
      else some (res, cycleIdx + 1, [])
    else none

/-- Entry point of the loop of `LivyCursor.execute`: `retries_time = 0`
(line 433), i.e. the full retry budget. -/
def executeLoop (results : Nat → StmtResult) : Option (StmtResult × Nat × List Nat) :=
  executeGo results 0 DEFAULT_EXECUTE_RETRIES_TIME

/-- Models the mutable cursor fields `self._rows` and `self._schema`
(lines 273-274). -/
structure CursorState where
  rows : Option (List (List String))
  schema : Option (List FieldDesc)
deriving DecidableEq, Repr

/-- Models how one `LivyCursor.execute` call ends: normal return, a raised
`DbtDatabaseError`, or divergence of the poll loop (never happens, see
`executeGo`). -/
inductive ExecOutcome where
  | ok
  | queryError (msg : String)
  | diverge
deriving DecidableEq, Repr

/-- Embeds `LivyCursor.execute` from its loop to the end (lines 437-464):
after the loop, status `"ok"` stores rows/schema (empty lists when
`len(values) < 1`), any other status clears both fields and raises
`DbtDatabaseError("Error while executing query: " + evalue)`.  Also returns
the number of submit-and-poll cycles and the retry sleeps. -/
def executeRun (results : Nat → StmtResult) (st : CursorState) :
    CursorState × ExecOutcome × Nat × List Nat :=
  match executeLoop results with
  | none => (st, .diverge, 0, [])
  | some (res, n, sleeps) =>
    if res.output.status = "ok" then
      if res.output.values_len ≥ 1 then
        ({ rows := some res.output.data, schema := some res.output.schemaFields },
          .ok, n, sleeps)
      else
        ({ rows := some [], schema := some [] }, .ok, n, sleeps)
    else
      ({ rows := none, schema := none },
        .queryError ("Error while executing query: " ++ res.output.evalue), n, sleeps)

/-- Embeds `LivyCursor.fetchone` (lines 481-500): pops the first buffered row
when `self._rows` is a non-empty list, otherwise yields `None`; returns the
row and the cursor state after the call. -/
def fetchone (st : CursorState) : Option (List String) × CursorState :=
  match st.rows with
  | some (r :: rest) => (some r, { st with rows := some rest })
  | some [] => (none, st)
  | none => (none, st)

/-- Models the 7-tuples `(name, type, None, None, None, None, nullable)`
built by `LivyCursor.description` (lines 311-322). -/
structure DescrTuple where
  name : String
  type : String
  a3 : Option Unit
  a4 : Option Unit
  a5 : Option Unit
  a6 : Option Unit
  nullable : Bool
deriving DecidableEq, Repr

/-- Embeds the `LivyCursor.description` property (lines 292-323): the empty
list when `self._schema is None`, otherwise one 7-tuple per schema field. -/
def description (st : CursorState) : List DescrTuple :=
  match st.schema with
  | none => []
  | some fields =>
    fields.map (fun field =>
      { name := field.name, type := field.type, a3 := none, a4 := none,
        a5 := none, a6 := none, nullable := field.nullable })

/-- Embeds the character class matched by the regex `\s` and stripped by
`str.strip()` for the ASCII range (the inputs this development evaluates are
ASCII): space, tab, newline, carriage return, vertical tab, form feed. -/
def pyIsSpace (c : Char) : Bool :=
  c = ' ' || c = '\t' || c = '\n' || c = '\r' || c = '\x0b' || c = '\x0c'

/-- Finds the index of the first occurrence of the two-character close
delimiter `*/`, the way the lazy `(.|\n)*?\*/` part of the pattern consumes
the fewest characters before the first reachable `*/`. -/
def findClose : List Char → Option Nat
  | '*' :: '/' :: _ => some 0
  | _ :: rest => (findClose rest).map (· + 1)
  | [] => none

/-- Decides whether the pattern `\s*/\*(.|\n)*?\*/\s*` matches at the head of
`l`, returning the length of the match.  The leading `\s*` is greedy; because
`/` is not a whitespace character, backtracking it below the full whitespace
run can never make the following `/\*` match, so the only viable choice is
the maximal run.  The trailing `\s*` is likewise greedy. -/
def matchAt (l : List Char) : Option Nat :=
  let ws := (l.takeWhile pyIsSpace).length
  match l.drop ws with
  | '/' :: '*' :: rest =>
    match findClose rest with
    | none => none
    | some q =>
      let afterClose := rest.drop (q + 2)
      let ws2 := (afterClose.takeWhile pyIsSpace).length
      some (ws + 2 + q + 2 + ws2)
  | _ => none

/-- Scans left to right for the leftmost match of the block-comment pattern,
returning its start position (relative to the scan origin) and length: the
leftmost-match rule of `re.sub`. -/
def findMatchAux : List Char → Nat → Option (Nat × Nat)
  | [], _ => none
  | c :: rest, p =>
    match matchAt (c :: rest) with
    | some len => some (p, len)
    | none => findMatchAux rest (p + 1)

/-- Embeds `re.sub(r"\s*/\*(.|\n)*?\*/\s*", "\n", sql, re.DOTALL)`
(line 376).  `re.sub`'s fourth positional parameter is `count`, so passing
`re.DOTALL` (= 16) limits the substitution to the first 16 matches (the flag
itself would be redundant: `(.|\n)` already matches newlines).  Each match is
replaced by a single newline and scanning resumes after the match. -/
def reSubGo : List Char → Nat → List Char
  | l, 0 => l
  | l, n + 1 =>
    match findMatchAux l 0 with
    | none => l
    | some (p, len) => l.take p ++ '\n' :: reSubGo (l.drop (p + len)) n

/-- Embeds Python's `str.strip()` (for ASCII whitespace): drops leading and
trailing whitespace characters. -/
def pyStrip (s : String) : String :=
  String.mk (((s.data.dropWhile pyIsSpace).reverse.dropWhile pyIsSpace).reverse)

/-- Embeds `LivyCursor._getLivySQL` (lines 366-377): the `re.sub` call with
`re.DOTALL` (= 16) in the `count` position, followed by `.strip()`. -/
def getLivySQL (sql : String) : String :=
  pyStrip (String.mk (reSubGo sql.data 16))

/-- Bridges truncating division by 60 and the 300-second threshold: Python's
`int(diff / 60) < 5` holds exactly when `diff < 300` seconds. -/
theorem tdiv_sixty_lt_five_iff (d : Int) : d.tdiv 60 < 5 ↔ d < 300 := by
  rcases le_or_lt 0 d with hd | hd
  · rw [Int.tdiv_eq_ediv hd (by norm_num)]
    omega
  · have h2 : 0 ≤ (-d).tdiv 60 := Int.tdiv_nonneg (by omega) (by norm_num)
    have h1 : (-d).tdiv 60 = -(d.tdiv 60) := Int.neg_tdiv d 60
    constructor <;> intro _ <;> omega

/-- Shows that a left fold whose step replaces the accumulator on every match
of `p` ends up holding the image under `f` of the last match, or the initial
accumulator when nothing matches. -/
theorem foldl_last_match {α β : Type} (p : α → Bool) (f : α → β)
    (items : List α) (acc : Option β) :
    items.foldl (fun sid x => if p x then some (f x) else sid) acc =
      (match items.reverse.find? p with
       | some x => some (f x)
       | none => acc) := by
  induction items using List.reverseRecOn generalizing acc with
  | nil => rfl
  | append_singleton l x ih =>
    rw [List.foldl_append, List.reverse_append]
    simp only [List.foldl_cons, List.foldl_nil, List.reverse_cons,
      List.reverse_nil, List.nil_append, List.singleton_append, List.find?_cons]
    cases hx : p x
    · simp only [Bool.false_eq_true, if_false]
      exact ih acc
    · simp only [if_true]

/-- C1 (counterexample): an HTTP status error is a transport-level failure of
the session-creation POST, yet `create_session` does not treat it as "no
response" — the response object was assigned before `raise_for_status`
raised, so the code goes on to parse a session id from the failed response. -/
theorem c1_counterexample :
    isTransportFailure (.httpStatusError ⟨some "7"⟩) = true ∧
    create_session_before_poll (.httpStatusError ⟨some "7"⟩) = .proceed "7" ∧
    create_session_before_poll (.httpStatusError ⟨some "7"⟩) ≠ .fatalNoResponse := by
  decide

/-- C1 (amended): for connection errors and timeouts — which are raised by the
POST call itself, before a response object exists — `create_session` raises
the fatal "Invalid response from livy server" error without parsing a session
id; for an HTTP status error the saved response is parsed for a session id
(raising the JSON-decode error when the body does not decode). -/
theorem c1_create_session_transport_failures (b : SessionJson) :
    create_session_before_poll .connErr = .fatalNoResponse ∧
    create_session_before_poll .timeoutErr = .fatalNoResponse ∧
    create_session_before_poll (.httpStatusError b) =
      (match b.idVal with
       | none => .jsonDecodeError
       | some i => .proceed i) := by
  refine ⟨rfl, rfl, ?_⟩
  cases b with
  | mk idVal => cases idVal <;> rfl

/-- C2 (counterexample): with two name matches in the listing, both in a
valid state, `get_exist_session` returns the id of the second match, not the
first — the inner `break` leaves only the poll loop, so the `for` loop keeps
scanning and overwrites `self.session_id`. -/
theorem c2_counterexample :
    get_exist_session (some "s")
      [{ id := "1", name := "s", livyState := "idle" },
       { id := "2", name := "s", livyState := "idle" }] none = some "2" ∧
    get_exist_session (some "s")
      [{ id := "1", name := "s", livyState := "idle" },
       { id := "2", name := "s", livyState := "idle" }] none ≠ some "1" := by
  decide

/-- C2 (amended): `get_exist_session`, started with no session id, returns the
id of the LAST session in listing order whose name matches and whose listed
state is not dead/shutting_down/killed, and `none` when there is no such
session; in particular it never returns a session whose last-known state is
dead/shutting_down/killed. -/
theorem c2_get_exist_session_last_match (nm : String) (items : List SessionItem) :
    get_exist_session (some nm) items none =
      (items.reverse.find? (fun s => s.name == nm &&
        !(["dead", "shutting_down", "killed"].contains s.livyState))).map
        (fun s => s.id) := by
  have hdef : get_exist_session (some nm) items none =
      items.foldl
        (fun sid session =>
          if session.name = nm then
            if ["dead", "shutting_down", "killed"].contains session.livyState then sid
            else some session.id
          else sid) none := rfl
  rw [hdef]
  have hstep : ∀ (sid : Option String), ∀ s ∈ items,
      (if s.name = nm then
        if ["dead", "shutting_down", "killed"].contains s.livyState then sid
        else some s.id
      else sid) =
      (if (s.name == nm &&
          !(["dead", "shutting_down", "killed"].contains s.livyState)) then
        some s.id
      else sid) := by
    intro sid s _
    by_cases h1 : s.name = nm
    · by_cases h2 : s.livyState = "dead" ∨ s.livyState = "shutting_down" ∨
          s.livyState = "killed"
      · rcases h2 with h2 | h2 | h2 <;> simp [h1, h2]
      · push_neg at h2
        simp [h1, h2.1, h2.2.1, h2.2.2]
    · simp [h1]
  rw [List.foldl_ext _ _ none hstep,
    foldl_last_match
      (fun s => s.name == nm &&
        !(["dead", "shutting_down", "killed"].contains s.livyState))
      (fun s => s.id) items none]
  cases items.reverse.find? (fun s => s.name == nm &&
    !(["dead", "shutting_down", "killed"].contains s.livyState)) <;> simp

/-- C3: given 3 submit responses in state "error" followed by a non-error
response, `_submitLivyCode` issues exactly 4 POSTs, each carrying the
identical `{code, kind}` payload, sleeps 10, 20 and 30 seconds between
consecutive POSTs, and returns the non-error response. -/
theorem c3_submit_retry_three_errors (responses : Nat → SubmitResp)
    (code language : String)
    (herr : ∀ i, i < 3 → (responses i).state = "error")
    (hok : (responses 3).state ≠ "error") :
    submitLivyCode responses code language =
      (responses 3, List.replicate 4 { code := code, kind := language },
        [10, 20, 30]) := by
  have h0 := herr 0 (by omega)
  have h1 := herr 1 (by omega)
  have h2 := herr 2 (by omega)
  simp [submitLivyCode, submitGo, check_retry_condition_when_submit_code,
    DEFAULT_EXECUTE_RETRIES_TIME, DEFAULT_EXECUTE_RETRIES_WAIT, h0, h1, h2, hok,
    List.replicate]

/-- Witness for C3 at a concrete response stream. -/
theorem c3_submit_retry_three_errors_witness :
    submitLivyCode
      (fun i => if i < 3 then { state := "error" } else { state := "waiting" })
      "select 1" "sql" =
      ({ state := "waiting" },
        List.replicate 4 { code := "select 1", kind := "sql" }, [10, 20, 30]) :=
  c3_submit_retry_three_errors
    (fun i => if i < 3 then { state := "error" } else { state := "waiting" })
    "select 1" "sql" (by decide) (by decide)

/-- C6: when every submit attempt reports state "error", `_submitLivyCode`
stops after its 5 retries (6 POSTs in total, sleeping 10, 20, 30, 40, 50
seconds in between) and returns the last errored response; the function has
no raise path, so this response flows back to the caller's poll loop. -/
theorem c6_submit_retry_exhaustion (responses : Nat → SubmitResp)
    (code language : String)
    (herr : ∀ i, (responses i).state = "error") :
    submitLivyCode responses code language =
      (responses 5, List.replicate 6 { code := code, kind := language },
        [10, 20, 30, 40, 50]) ∧
    (responses 5).state = "error" := by
  refine ⟨?_, herr 5⟩
  simp [submitLivyCode, submitGo, check_retry_condition_when_submit_code,
    DEFAULT_EXECUTE_RETRIES_TIME, DEFAULT_EXECUTE_RETRIES_WAIT,
    herr 0, herr 1, herr 2, herr 3, herr 4, List.replicate]

/-- Witness for C6 at a constant errored response stream. -/
theorem c6_submit_retry_exhaustion_witness :
    submitLivyCode (fun _ => { state := "error" }) "select 1" "sql" =
      ({ state := "error" },
        List.replicate 6 { code := "select 1", kind := "sql" },
        [10, 20, 30, 40, 50]) ∧
    SubmitResp.state { state := "error" } = "error" :=
  c6_submit_retry_exhaustion (fun _ => { state := "error" }) "select 1" "sql"
    (fun _ => rfl)

/-- C4: when the polled result is "available" with a transient-pattern error
output on the first 2 cycles and then succeeds, `execute` runs the full
submit-and-poll cycle exactly 3 times (sleeping 10 and 20 seconds between
cycles) and ends on the successful result. -/
theorem c4_execute_retry_two_transient (results : Nat → StmtResult)
    (h01 : ∀ i, i < 2 → (results i).state = "available" ∧
      check_retry_condition_when_execute (results i) = true)
    (h2 : (results 2).state = "available")
    (h2ok : (results 2).output.status = "ok") :
    executeLoop results = some (results 2, 3, [10, 20]) := by
  have hs0 := (h01 0 (by omega)).1
  have hc0 := (h01 0 (by omega)).2
  have hs1 := (h01 1 (by omega)).1
  have hc1 := (h01 1 (by omega)).2
  have hc2 : check_retry_condition_when_execute (results 2) = false := by
    simp [check_retry_condition_when_execute, h2ok]
  simp [executeLoop, executeGo, hs0, hc0, hs1, hc1, h2, hc2,
    DEFAULT_EXECUTE_RETRIES_TIME, DEFAULT_EXECUTE_RETRIES_WAIT]

/-- Witness for C4 at a concrete cycle-result stream whose first two results
carry the 403 transient pattern. -/
theorem c4_execute_retry_two_transient_witness :
    executeLoop (fun i =>
      if i < 2 then
        { state := "available",
          output := { status := "error",
                      evalue := "Request failed: HTTP/1.1 403 Forbidden ClientRequestId abc",
                      values_len := 0, data := [], schemaFields := [] } }
      else
        { state := "available",
          output := { status := "ok", evalue := "", values_len := 1,
                      data := [["1"]],
                      schemaFields := [{ name := "a", type := "int", nullable := true }] } }) =
      some ({ state := "available",
              output := { status := "ok", evalue := "", values_len := 1,
                          data := [["1"]],
                          schemaFields := [{ name := "a", type := "int", nullable := true }] } },
        3, [10, 20]) :=
  c4_execute_retry_two_transient
    (fun i =>
      if i < 2 then
        { state := "available",
          output := { status := "error",
                      evalue := "Request failed: HTTP/1.1 403 Forbidden ClientRequestId abc",
                      values_len := 0, data := [], schemaFields := [] } }
      else
        { state := "available",
          output := { status := "ok", evalue := "", values_len := 1,
                      data := [["1"]],
                      schemaFields := [{ name := "a", type := "int", nullable := true }] } })
    (by decide) (by decide) (by decide)

/-- C5: a statement that completes "available" with an error output whose
evalue matches no transient-retry pattern makes `execute` clear the buffers
and raise `DbtDatabaseError` carrying the remote error text, after a single
submit-and-poll cycle (zero retries, no sleeps). -/
theorem c5_non_transient_error_raises (results : Nat → StmtResult)
    (st : CursorState)
    (hs0 : (results 0).state = "available")
    (herr : (results 0).output.status = "error")
    (hpat : EXECUTE_RETRIES_PATTERNS.any
      (fun pattern => strContains (results 0).output.evalue pattern) = false) :
    executeRun results st =
      ({ rows := none, schema := none },
        .queryError ("Error while executing query: " ++ (results 0).output.evalue),
        1, []) := by
  have hc0 : check_retry_condition_when_execute (results 0) = false := by
    simp [check_retry_condition_when_execute, herr, hpat]
  have hne : ¬ (results 0).output.status = "ok" := by
    rw [herr]
    decide
  simp [executeRun, executeLoop, executeGo, hs0, hc0, hne,
    DEFAULT_EXECUTE_RETRIES_TIME]

/-- Witness for C5 at a concrete non-transient error result. -/
theorem c5_non_transient_error_raises_witness :
    executeRun
      (fun _ => { state := "available",
                  output := { status := "error", evalue := "Some other failure",
                              values_len := 0, data := [], schemaFields := [] } })
      { rows := none, schema := none } =
      ({ rows := none, schema := none },
        .queryError ("Error while executing query: " ++ "Some other failure"),
        1, []) :=
  c5_non_transient_error_raises
    (fun _ => { state := "available",
                output := { status := "error", evalue := "Some other failure",
                            values_len := 0, data := [], schemaFields := [] } })
    { rows := none, schema := none } rfl rfl (by decide)

/-- C9: whenever `execute` ends in the `DbtDatabaseError` branch, the cursor
state it leaves behind has both buffers cleared, so `fetchone` yields `None`
and `description` is the empty list — no result of a previous successful
`execute` survives. -/
theorem c9_error_clears_rows_and_schema (results : Nat → StmtResult)
    (st st2 : CursorState) (msg : String) (n : Nat) (sleeps : List Nat)
    (h : executeRun results st = (st2, .queryError msg, n, sleeps)) :
    st2.rows = none ∧ st2.schema = none ∧
    (fetchone st2).1 = none ∧ description st2 = [] := by
  unfold executeRun at h
  split at h
  · simp at h
  · split at h
    · split at h
      · simp at h
      · simp at h
    · have hst : ({ rows := none, schema := none } : CursorState) = st2 :=
        congrArg Prod.fst h
      subst hst
      exact ⟨rfl, rfl, rfl, rfl⟩

/-- Witness for C9 at a concrete failed execution following a cursor state
that still buffers a previous result. -/
theorem c9_error_clears_rows_and_schema_witness :
    CursorState.rows { rows := none, schema := none } = none ∧
    CursorState.schema { rows := none, schema := none } = none ∧
    (fetchone { rows := none, schema := none }).1 = none ∧
    description { rows := none, schema := none } = [] :=
  c9_error_clears_rows_and_schema
    (fun _ => { state := "available",
                output := { status := "error", evalue := "boom", values_len := 0,
                            data := [], schemaFields := [] } })
    { rows := some [["r1"]],
      schema := some [{ name := "a", type := "int", nullable := true }] }
    { rows := none, schema := none } "Error while executing query: boom" 1 []
    (by decide)

/-- C7 (counterexample): a cached token expiring exactly 5 minutes (300
seconds) from now is NOT refreshed — `int(difference.total_seconds() / 60)`
is then exactly 5, which fails the `< 5` test — contradicting the claim that
a token expiring 5 minutes or less from now triggers a fetch. -/
theorem c7_counterexample :
    is_token_refresh_necessary 300 0 = false ∧
    (get_headers (some { token := "cached", expires_on := 300 }) 0
      { token := "fresh", expires_on := 4000 }).2.2 = false ∧
    (get_headers (some { token := "cached", expires_on := 300 }) 0
      { token := "fresh", expires_on := 4000 }).2.1 =
      { token := "cached", expires_on := 300 } := by
  decide

/-- C7 (amended): `get_headers` fetches a fresh token if and only if no token
is cached or the cached token expires STRICTLY less than 300 seconds (5
minutes) from now; otherwise the cached token is used unchanged. -/
theorem c7_token_refresh_threshold (cached : Option AccessTok) (now : Int)
    (freshTok : AccessTok) :
    (get_headers cached now freshTok).2.2 =
      (match cached with
       | none => true
       | some t => decide (t.expires_on - now < 300)) ∧
    (get_headers cached now freshTok).2.1 =
      (match cached with
       | none => freshTok
       | some t => if t.expires_on - now < 300 then freshTok else t) := by
  cases cached with
  | none => exact ⟨rfl, rfl⟩
  | some t =>
    have hiff := tdiv_sixty_lt_five_iff (t.expires_on - now)
    by_cases h : (t.expires_on - now).tdiv 60 < 5
    · have h300 : t.expires_on - now < 300 := hiff.mp h
      simp [get_headers, is_token_refresh_necessary, h, h300]
    · have h300 : ¬ t.expires_on - now < 300 := fun hh => h (hiff.mpr hh)
      simp [get_headers, is_token_refresh_necessary, h, h300]

/-- C8: contrary to the claim that every block comment is removed however
many the string contains, `_getLivySQL` removes at most 16 of them: the call
`re.sub(pattern, "\n", sql, re.DOTALL)` passes `re.DOTALL` (= 16) in the
`count` position, so with 17 block comments the last one survives in the code
submitted to the remote session. -/
theorem c8_block_comment_count_bug :
    getLivySQL (String.join (List.replicate 17 "x/*c*/") ++ "y") =
      String.join (List.replicate 16 "x\n") ++ "x/*c*/y" ∧
    strContains (getLivySQL (String.join (List.replicate 17 "x/*c*/") ++ "y"))
      "/*" = true ∧
    getLivySQL (String.join (List.replicate 16 "x/*c*/") ++ "y") =
      String.join (List.replicate 16 "x\n") ++ "y" := by
  decide

/-- C10: `_fix_binding` converts a Python `bool` through the numeric branch —
`bool` is a subclass of `int`, so `isinstance(value, NUMBERS)` matches first —
yielding `float(True) = 1.0` and `float(False) = 0.0`, never a quoted string. -/
theorem c10_bool_binding_is_float :
    fix_binding (.pyBool true) = .num 1 ∧ fix_binding (.pyBool false) = .num 0 := by
  exact ⟨rfl, rfl⟩
